import Mathlib

/-!
Verification of the form-state / validation engine of the create-VM dialog
(`pkg/machines/components/create-vm-dialog/createVmDialog.jsx`).

The dialog's state, its field update rules (`onValueChanged`), its validation
(`validateParams`) and its submission path (`onCreateClicked`) are embedded as
pure Lean functions.  JavaScript numbers are modelled as rationals (`ℚ`): the
quantities involved (memory / storage sizes, base-2 unit factors) stay inside
the range where IEEE double arithmetic on them is exact, so rational
arithmetic is a faithful model.  JavaScript strings are Lean `String`s;
`undefined` / `null` become `Option`.  React's `setState` batches updates
against the state snapshot taken at the start of an event handler, so every
update rule below reads all fields from its input state and produces the
merged result.
-/

namespace CreateVmDialog

/-- The unit ladder used by the dialog (`units` from `helpers.js`). -/
inductive SizeUnit where
  | B
  | KiB
  | MiB
  | GiB
deriving DecidableEq, Repr

/-- Modelled from the spec: the `units` table of `helpers.js` is not among the
sources; the spec fixes "a fixed unit ladder: bytes/KiB/MiB/GiB" whose
factors are "base-2 byte multiples".  Each unit's factor in bytes. -/
def unitFactor : SizeUnit → ℚ
  | SizeUnit.B => 1
  | SizeUnit.KiB => 1024
  | SizeUnit.MiB => 1048576
  | SizeUnit.GiB => 1073741824

/-- Display name of a unit (the `name` field of the `units` entries). -/
def unitName : SizeUnit → String
  | SizeUnit.B => "B"
  | SizeUnit.KiB => "KiB"
  | SizeUnit.MiB => "MiB"
  | SizeUnit.GiB => "GiB"

/-- Modelled from the spec: `convertToUnit` of `helpers.js` is not among the
sources; the spec describes it as "pure proportional conversion" over the
base-2 byte-multiple unit ladder, re-expressing a value given in `inputUnit`
in `outputUnit`. -/
def convertToUnit (value : ℚ) (inputUnit outputUnit : SizeUnit) : ℚ :=
  value * unitFactor inputUnit / unitFactor outputUnit

/-- `Math.floor` on a (rational-modelled) JavaScript number. -/
def jsFloor (q : ℚ) : ℚ := ((Rat.floor q : ℤ) : ℚ)

/-- Modelled from the spec: `isEmpty` of `helpers.js` is not among the
sources; the validation rules of the spec speak of a string being "empty",
with a missing (`null`) string counting as empty. -/
def isEmpty : Option String → Bool
  | none => true
  | some s => s == ""

/-- JavaScript truthiness of an optional number (`undefined` and `0` are
falsy). -/
def numTruthy : Option ℚ → Bool
  | none => false
  | some q => q != 0

/-- `value.trim()` on a JavaScript string, modelled at the character level:
drop whitespace from both ends. -/
def jsTrim (s : String) : String :=
  String.mk (((s.data.dropWhile Char.isWhitespace).reverse.dropWhile Char.isWhitespace).reverse)

/-- `value.startsWith(pre)` on a JavaScript string, modelled at the
character level. -/
def jsStartsWith (s pre : String) : Bool :=
  pre.data.isPrefixOf s.data

/-- The source-type tagged union (`sourceType`); the five constants
`URL_SOURCE`, `LOCAL_INSTALL_MEDIA_SOURCE`, `DOWNLOAD_AN_OS`,
`EXISTING_DISK_IMAGE_SOURCE`, `PXE_SOURCE` of the dialog. -/
inductive SourceType where
  | url
  | file
  | os
  | disk_image
  | pxe
deriving DecidableEq, Repr

/-- Minimum/recommended resource hints of an OS record
(`minimumResources` / `recommendedResources`), in bytes. -/
structure ResourceHints where
  ram : Option ℚ
  storage : Option ℚ
deriving DecidableEq, Repr

/-- An OS catalog record (the fields of `osInfoList` entries that this
component reads). -/
structure OperatingSystem where
  shortId : String
  minimumResources : ResourceHints
  recommendedResources : ResourceHints
  unattendedInstallable : Bool
  profiles : Option (List String)
deriving DecidableEq, Repr

/-- An existing VM, as consulted for name-uniqueness validation. -/
structure VmRecord where
  name : String
  connectionName : String
deriving DecidableEq, Repr

/-- A virtual network offered for PXE boot. -/
structure VirtualNetwork where
  name : String
  connectionName : String
  pxeSupport : Bool
deriving DecidableEq, Repr

/-- A host node device offered for PXE boot. -/
structure NodeDevice where
  name : String
  connectionName : String
  pxeCapable : Bool
deriving DecidableEq, Repr

/-- A storage pool (the fields read by `getPoolSpaceAvailable` and the
`storagePool` update rule). -/
structure StoragePool where
  name : String
  connectionName : String
  targetPath : String
  available : Option ℚ
deriving DecidableEq, Repr

/-- The parameter object passed to `validateParams` (the dialog state spread
together with the connection-scoped VM list). -/
structure VmParams where
  vmName : String
  vms : List VmRecord
  os : Option OperatingSystem
  source : String
  sourceType : SourceType
  memorySize : ℚ
  memorySizeUnit : SizeUnit
  storageSize : ℚ
  storageSizeUnit : SizeUnit
  storagePool : String
  unattendedInstallation : Bool
  rootPassword : String
  userPassword : String
deriving DecidableEq, Repr

/-- The validation failure map: one optional failure message per form
section.  A `none` field models the key being absent from the JavaScript
object. -/
structure ValidationFailed where
  vmName : Option String
  os : Option String
  source : Option String
  memory : Option String
  storage : Option String
  password : Option String
deriving DecidableEq, Repr

/-- `Object.getOwnPropertyNames(validation).length > 0`. -/
def hasFailures (vf : ValidationFailed) : Bool :=
  vf.vmName.isSome || vf.os.isSome || vf.source.isSome ||
  vf.memory.isSome || vf.storage.isSome || vf.password.isSome

/-- `validateParams` (createVmDialog.jsx lines 121-190).  The ambient
`permission.user.name` global is passed explicitly as `permUserName`, as the
spec's design notes direct. -/
def validateParams (permUserName : String) (p : VmParams) : ValidationFailed :=
  { vmName :=
      if isEmpty (some (jsTrim p.vmName)) then some "Name must not be empty"
      else if p.vms.any (fun vm => vm.name == p.vmName) then
        some ("VM " ++ p.vmName ++ " already exists")
      else none
    os :=
      if p.os.isNone then
        some "You need to select the most closely matching Operating System"
      else none
    source :=
      -- const source = vmParams.source ? vmParams.source.trim() : null
      let source : Option String := if p.source != "" then some (jsTrim p.source) else none
      if isEmpty source = false then
        match p.sourceType with
        | SourceType.pxe => none
        | SourceType.file | SourceType.disk_image =>
          if ¬ jsStartsWith p.source "/" then some "Invalid filename" else none
        | SourceType.url | SourceType.os =>
          if ¬ (jsStartsWith p.source "http" ∨ jsStartsWith p.source "ftp" ∨
                jsStartsWith p.source "nfs") then
            some "Source should start with http, ftp or nfs protocol"
          else none
      else if p.sourceType ≠ SourceType.os then
        some "Installation Source must not be empty"
      else none
    memory :=
      if p.memorySize = 0 then some "Memory must not be 0"
      else
        match p.os with
        | none => none
        | some o =>
          match o.minimumResources.ram with
          | none => none
          | some ram =>
            if ram ≠ 0 ∧ convertToUnit p.memorySize p.memorySizeUnit SizeUnit.B < ram then
              some ("The selected Operating System has minimum memory requirement of " ++
                    toString (convertToUnit ram SizeUnit.B p.memorySizeUnit) ++ " " ++
                    unitName p.memorySizeUnit)
            else none
    storage :=
      if p.sourceType ≠ SourceType.disk_image ∧ p.storagePool = "NewVolume" then
        if p.storageSize = 0 then some "Storage size must not be 0"
        else
          match p.os with
          | none => none
          | some o =>
            match o.minimumResources.storage with
            | none => none
            | some st =>
              if st ≠ 0 ∧ convertToUnit p.storageSize p.storageSizeUnit SizeUnit.B < st then
                some ("The selected Operating System has minimum storage size requirement of " ++
                      toString (convertToUnit st SizeUnit.B p.storageSizeUnit) ++ " " ++
                      unitName p.storageSizeUnit)
              else none
      else none
    password :=
      if p.unattendedInstallation = true ∧ p.rootPassword = "" ∧
         (permUserName = "root" ∨ p.userPassword = "") then
        some "Please set a root or a user password"
      else none }

/-- The dialog state (`this.state` of `CreateVmModal`), restricted to the
fields the update rules, validation and submission read or write. -/
structure CreateVmState where
  inProgress : Bool
  validate : Bool
  vmName : String
  connectionName : String
  sourceType : SourceType
  unattendedInstallation : Bool
  source : String
  os : Option OperatingSystem
  memorySize : ℚ
  memorySizeUnit : SizeUnit
  storageSize : ℚ
  storageSizeUnit : SizeUnit
  storagePool : String
  storageVolume : String
  startVm : Bool
  recommendedMemory : Option ℚ
  minimumMemory : ℚ
  recommendedStorage : Option ℚ
  minimumStorage : ℚ
  userPassword : String
  rootPassword : String
  profile : Option String
deriving DecidableEq, Repr

/-- The props of `CreateVmModal` that the update rules and submission read.
The ambient `permission.user` global is carried here explicitly
(`permUserName`, `permUserHome`), as the spec's design notes direct. -/
structure DialogProps where
  nodeMaxMemory : ℚ
  storagePools : List StoragePool
  networks : List VirtualNetwork
  nodeDevices : List NodeDevice
  vms : List VmRecord
  permUserName : String
  permUserHome : Option String
deriving DecidableEq, Repr

/-- `LIBVIRT_SYSTEM_CONNECTION` — modelled from the spec: the constant lives
in `helpers.js`, not among the sources; the spec's "system-wide" connection
scope. -/
def LIBVIRT_SYSTEM_CONNECTION : String := "system"

/-- `LIBVIRT_SESSION_CONNECTION` — modelled from the spec: the constant lives
in `helpers.js`, not among the sources; the spec's "per-user session"
connection scope. -/
def LIBVIRT_SESSION_CONNECTION : String := "session"

/-- JavaScript truthiness of an optional string (`undefined` and `""` are
falsy). -/
def strTruthy : Option String → Bool
  | none => false
  | some s => s != ""

/-- `getPoolSpaceAvailable` (createVmDialog.jsx lines 80-90): look a pool up
by name (when given) or by target path, among the pools of the given
connection, and return its available space. -/
def getPoolSpaceAvailable (storagePools : List StoragePool) (poolName : Option String)
    (poolPath : Option String) (connectionName : String) : Option ℚ :=
  let pools := storagePools.filter (fun pool => pool.connectionName == connectionName)
  let storagePool :=
    if strTruthy poolName then pools.find? (fun pool => some pool.name == poolName)
    else if strTruthy poolPath then pools.find? (fun pool => some pool.targetPath == poolPath)
    else none
  match storagePool with
  | some pool => pool.available
  | none => none

/-- `getSpaceAvailable` (createVmDialog.jsx lines 105-119): available space of
the default storage pool — the pool named "default" when its space is truthy,
else the pool at the connection's conventional images path. -/
def getSpaceAvailable (permUserHome : Option String) (storagePools : List StoragePool)
    (connectionName : String) : Option ℚ :=
  let space := getPoolSpaceAvailable storagePools (some "default") none connectionName
  if numTruthy space then space
  else
    let poolPath : Option String :=
      if connectionName = LIBVIRT_SYSTEM_CONNECTION then some "/var/lib/libvirt/images"
      else match permUserHome with
        | some home => some (home ++ "/.local/share/libvirt/images")
        | none => none
    getPoolSpaceAvailable storagePools none poolPath connectionName

/-- Modelled from the spec: `getPXEInitialNetworkSource` lives in
`pxe-helpers.js`, which is not among the sources.  The spec says the
sourceType rule, on switching to network-boot, computes "an initial network
source from available network/device lists", non-empty "when any supporting
network/device exists": the first PXE-supporting virtual network yields a
`network=` source, else the first PXE-capable node device yields a direct
`type=direct` source, else the source stays empty. -/
def getPXEInitialNetworkSource (nodeDevices : List NodeDevice)
    (networks : List VirtualNetwork) : String :=
  match networks.find? (fun n => n.pxeSupport) with
  | some n => "network=" ++ n.name
  | none =>
    match nodeDevices.find? (fun d => d.pxeCapable) with
    | some d => "type=direct,source=" ++ d.name
    | none => ""

/-- `value.split(sep)` on a JavaScript string, at the character level:
splitting on every occurrence of the one-character separator. -/
def splitOnChar (sep : Char) : List Char → List (List Char)
  | [] => [[]]
  | c :: cs =>
    if c = sep then [] :: splitOnChar sep cs
    else
      match splitOnChar sep cs with
      | [] => [[c]]
      | g :: gs => (c :: g) :: gs

/-- `pieces.join(sep)` on JavaScript strings, at the character level. -/
def joinWith (sep : Char) : List (List Char) → List Char
  | [] => []
  | [g] => g
  | g :: g' :: gs => g ++ sep :: joinWith sep (g' :: gs)

/-- Insertion step of `jsSortStrings`. -/
def insertSorted (x : String) : List String → List String
  | [] => [x]
  | y :: ys => if y < x then y :: insertSorted x ys else x :: y :: ys

/-- `array.sort()` on JavaScript string arrays (ascending lexicographic
order; a stable insertion sort). -/
def jsSortStrings (l : List String) : List String :=
  l.foldr insertSorted []

/-- The `vmName` case of `onValueChanged` (createVmDialog.jsx lines 608-609):
`value.split(" ").join("_")`. -/
def onValueChanged_vmName (s : CreateVmState) (value : String) : CreateVmState :=
  { s with vmName := String.mk (joinWith '_' (splitOnChar ' ' value.data)) }

/-- The `sourceType` case of `onValueChanged` (createVmDialog.jsx lines
642-652): store the new type; on switching to PXE compute the initial
network source from the connection-scoped device/network lists; on switching
away from PXE reset the source to the empty string. -/
def onValueChanged_sourceType (props : DialogProps) (s : CreateVmState)
    (value : SourceType) : CreateVmState :=
  let s1 := { s with sourceType := value }
  if value = SourceType.pxe then
    { s1 with
      source := getPXEInitialNetworkSource
        (props.nodeDevices.filter (fun d => d.connectionName == s.connectionName))
        (props.networks.filter (fun n => n.connectionName == s.connectionName)) }
  else if s.sourceType = SourceType.pxe ∧ value ≠ SourceType.pxe then
    { s1 with source := "" }
  else s1

/-- The `memorySize` case of `onValueChanged` (createVmDialog.jsx lines
667-673): clamp the raw value from above to the node maximum memory (given in
KiB) converted into the current memory unit. -/
def onValueChanged_memorySize (props : DialogProps) (s : CreateVmState)
    (value : ℚ) : CreateVmState :=
  { s with
    memorySize :=
      min value (jsFloor (convertToUnit props.nodeMaxMemory SizeUnit.KiB s.memorySizeUnit)) }

/-- The `storageSize` case of `onValueChanged` (createVmDialog.jsx lines
674-686): clamp the raw value from above to the connection's available pool
space when that is determinable (truthy). -/
def onValueChanged_storageSize (props : DialogProps) (s : CreateVmState)
    (value : ℚ) : CreateVmState :=
  let storagePools := props.storagePools.filter
    (fun pool => pool.connectionName == s.connectionName)
  let spaceAvailable := getSpaceAvailable props.permUserHome storagePools s.connectionName
  let value :=
    match spaceAvailable with
    | some space =>
      if space ≠ 0 then
        min value (jsFloor (convertToUnit space SizeUnit.B s.storageSizeUnit))
      else value
    | none => value
  { s with storageSize := value }

/-- The `memorySizeUnit` case of `onValueChanged` (createVmDialog.jsx lines
687-692): store the new unit and re-express the stored value from the old
unit into the new one. -/
def onValueChanged_memorySizeUnit (s : CreateVmState) (value : SizeUnit) : CreateVmState :=
  { s with
    memorySizeUnit := value
    memorySize := convertToUnit s.memorySize s.memorySizeUnit value }

/-- The `storageSizeUnit` case of `onValueChanged` (createVmDialog.jsx lines
693-698). -/
def onValueChanged_storageSizeUnit (s : CreateVmState) (value : SizeUnit) : CreateVmState :=
  { s with
    storageSizeUnit := value
    storageSize := convertToUnit s.storageSize s.storageSizeUnit value }

/-- The `unattendedInstallation` case of `onValueChanged` (createVmDialog.jsx
lines 754-755): store the flag and force `startVm` to `true`. -/
def onValueChanged_unattendedInstallation (s : CreateVmState) (value : Bool) : CreateVmState :=
  { s with unattendedInstallation := value, startVm := true }

/-- The `os` case of `onValueChanged` (createVmDialog.jsx lines 716-752).
All reads go through the snapshot `s` (React batches the `setState` calls of
one handler against the same snapshot); the `setState` deltas are merged in
program order, and the re-entrant `onValueChanged` calls for `memorySize`,
`storageSize` and `unattendedInstallation` are the corresponding rules
applied against the same snapshot. -/
def onValueChanged_os (props : DialogProps) (s : CreateVmState)
    (value : OperatingSystem) : CreateVmState :=
  -- recommended-memory branch
  let s1 :=
    if numTruthy value.recommendedResources.ram then
      match value.recommendedResources.ram with
      | some ram =>
        let converted := jsFloor (convertToUnit ram SizeUnit.B s.memorySizeUnit)
        if converted = 0 then
          { s with
            memorySizeUnit := SizeUnit.MiB
            memorySize := jsFloor (convertToUnit ram SizeUnit.B SizeUnit.MiB) }
        else
          { s with memorySize := (onValueChanged_memorySize props s converted).memorySize }
      | none => s
    else s
  -- recommended-storage branch
  let s2 :=
    if numTruthy value.recommendedResources.storage then
      match value.recommendedResources.storage with
      | some st =>
        let converted := jsFloor (convertToUnit st SizeUnit.B s.storageSizeUnit)
        if converted = 0 then
          { s1 with
            storageSizeUnit := SizeUnit.MiB
            storageSize := jsFloor (convertToUnit st SizeUnit.B SizeUnit.MiB) }
        else
          { s1 with storageSize := (onValueChanged_storageSize props s converted).storageSize }
      | none => s1
    else s1
  -- if (!value.unattendedInstallable) onValueChanged('unattendedInstallation', false)
  let s3 :=
    if value.unattendedInstallable = false then
      onValueChanged_unattendedInstallation s2 false
    else s2
  -- this.setState(stateDelta)
  { s3 with
    os := some value
    minimumMemory :=
      if numTruthy value.minimumResources.ram then
        value.minimumResources.ram.getD s.minimumMemory
      else s.minimumMemory
    profile :=
      match value.profiles with
      | some ps => (jsSortStrings ps).reverse.head?
      | none => s.profile
    recommendedMemory :=
      if numTruthy value.recommendedResources.ram then value.recommendedResources.ram
      else none
    minimumStorage :=
      if numTruthy value.minimumResources.storage then
        value.minimumResources.storage.getD s.minimumStorage
      else s.minimumStorage
    recommendedStorage :=
      if numTruthy value.recommendedResources.storage then value.recommendedResources.storage
      else none }

/-- The parameter snapshot handed to the VM-creation collaborator
(createVmDialog.jsx lines 775-790). -/
structure CreateVmParams where
  connectionName : String
  vmName : String
  source : String
  sourceType : SourceType
  os : String
  profile : Option String
  memorySize : ℚ
  storageSize : ℚ
  storagePool : String
  storageVolume : String
  startVm : Bool
  unattended : Bool
  userPassword : String
  rootPassword : String
deriving DecidableEq, Repr

/-- Builds the frozen parameter snapshot of `onCreateClicked`. -/
def mkCreateVmParams (s : CreateVmState) : CreateVmParams :=
  { connectionName := s.connectionName
    vmName := s.vmName
    source := s.source
    sourceType := s.sourceType
    os := match s.os with
      | some o => o.shortId
      | none => "auto"
    profile := s.profile
    memorySize := convertToUnit s.memorySize s.memorySizeUnit SizeUnit.MiB
    storageSize := convertToUnit s.storageSize s.storageSizeUnit SizeUnit.GiB
    storagePool := s.storagePool
    storageVolume := s.storageVolume
    startVm := s.startVm
    unattended := s.unattendedInstallation
    userPassword := s.userPassword
    rootPassword := s.rootPassword }

/-- The `vmParams` argument of the `validateParams` calls in
`onCreateClicked` and `render`: the state spread together with the VM list
filtered to the active connection scope. -/
def mkVmParams (props : DialogProps) (s : CreateVmState) : VmParams :=
  { vmName := s.vmName
    vms := props.vms.filter (fun vm => vm.connectionName == s.connectionName)
    os := s.os
    source := s.source
    sourceType := s.sourceType
    memorySize := s.memorySize
    memorySizeUnit := s.memorySizeUnit
    storageSize := s.storageSize
    storageSizeUnit := s.storageSizeUnit
    storagePool := s.storagePool
    unattendedInstallation := s.unattendedInstallation
    rootPassword := s.rootPassword
    userPassword := s.userPassword }

/-- The outcome of `onCreateClicked`: the list of creation requests actually
dispatched to the collaborator, plus the `inProgress` / `validate` flags
written into the state. -/
structure SubmitResult where
  dispatches : List CreateVmParams
  inProgress : Bool
  validate : Bool
deriving DecidableEq, Repr

/-- `onCreateClicked` (createVmDialog.jsx lines 763-812): validate; on any
failure mark the state as showing validation errors without dispatching; else
dispatch the frozen snapshot once. -/
def onCreateClicked (props : DialogProps) (s : CreateVmState) : SubmitResult :=
  let validation := validateParams props.permUserName (mkVmParams props s)
  if hasFailures validation then
    { dispatches := [], inProgress := false, validate := true }
  else
    { dispatches := [mkCreateVmParams s], inProgress := true, validate := false }

/-! ## Supporting lemmas -/

theorem unitFactor_pos (u : SizeUnit) : 0 < unitFactor u := by
  cases u <;> norm_num [unitFactor]

theorem unitFactor_ne_zero (u : SizeUnit) : unitFactor u ≠ 0 :=
  ne_of_gt (unitFactor_pos u)

theorem jsFloor_le (q : ℚ) : jsFloor q ≤ q := by
  unfold jsFloor
  exact Rat.le_floor.mp (le_refl (Rat.floor q))

theorem convertToUnit_mul_factor (v : ℚ) (a b : SizeUnit) :
    convertToUnit v a b * unitFactor b = v * unitFactor a := by
  unfold convertToUnit
  rw [div_mul_cancel₀ _ (unitFactor_ne_zero b)]

theorem convertToUnit_roundtrip (v : ℚ) (a b : SizeUnit) :
    convertToUnit (convertToUnit v a b) b a = v := by
  unfold convertToUnit
  rw [div_mul_cancel₀ _ (unitFactor_ne_zero b), mul_div_cancel_right₀ _ (unitFactor_ne_zero a)]

/-! ## C4 — unit change preserves the real quantity -/

/-- C4: the `memorySizeUnit` / `storageSizeUnit` update rules store the new
unit and re-express the stored value from the old unit into the new one by
pure proportional conversion over the base-2 byte ladder, preserving the
real quantity (value times unit factor in bytes); consequently converting
any value from one ladder unit to another and back yields the original value
(here even exactly, so in particular within integer-floor tolerance). -/
theorem c4_unit_change_preserves_quantity :
    (∀ (s : CreateVmState) (u : SizeUnit),
      (onValueChanged_memorySizeUnit s u).memorySizeUnit = u ∧
      (onValueChanged_memorySizeUnit s u).memorySize =
        convertToUnit s.memorySize s.memorySizeUnit u ∧
      (onValueChanged_memorySizeUnit s u).memorySize * unitFactor u =
        s.memorySize * unitFactor s.memorySizeUnit ∧
      (onValueChanged_memorySizeUnit (onValueChanged_memorySizeUnit s u)
        s.memorySizeUnit).memorySize = s.memorySize) ∧
    (∀ (s : CreateVmState) (u : SizeUnit),
      (onValueChanged_storageSizeUnit s u).storageSizeUnit = u ∧
      (onValueChanged_storageSizeUnit s u).storageSize =
        convertToUnit s.storageSize s.storageSizeUnit u ∧
      (onValueChanged_storageSizeUnit s u).storageSize * unitFactor u =
        s.storageSize * unitFactor s.storageSizeUnit ∧
      (onValueChanged_storageSizeUnit (onValueChanged_storageSizeUnit s u)
        s.storageSizeUnit).storageSize = s.storageSize) ∧
    (∀ (v : ℚ) (u1 u2 : SizeUnit),
      convertToUnit (convertToUnit v u1 u2) u2 u1 = v) := by
  refine ⟨fun s u => ?_, fun s u => ?_, fun v u1 u2 => convertToUnit_roundtrip v u1 u2⟩
  · refine ⟨rfl, rfl, convertToUnit_mul_factor _ _ _, ?_⟩
    simp only [onValueChanged_memorySizeUnit]
    exact convertToUnit_roundtrip _ _ _
  · refine ⟨rfl, rfl, convertToUnit_mul_factor _ _ _, ?_⟩
    simp only [onValueChanged_storageSizeUnit]
    exact convertToUnit_roundtrip _ _ _

/-- Characterization of the name failure produced by `validateParams`. -/
theorem validateParams_vmName_iff (u : String) (p : VmParams) :
    (validateParams u p).vmName ≠ none ↔
      (jsTrim p.vmName = "" ∨ ∃ vm ∈ p.vms, vm.name = p.vmName) := by
  by_cases h1 : jsTrim p.vmName = ""
  · simp [validateParams, isEmpty, h1]
  · by_cases h2 : ∃ vm ∈ p.vms, vm.name = p.vmName
    · obtain ⟨vm, hmem, hname⟩ := h2
      have hany : p.vms.any (fun vm => vm.name == p.vmName) = true :=
        List.any_eq_true.mpr ⟨vm, hmem, by simp [hname]⟩
      simp [validateParams, isEmpty, h1, hany]
      exact ⟨vm, hmem, hname⟩
    · have hany : p.vms.any (fun vm => vm.name == p.vmName) = false := by
        rw [Bool.eq_false_iff]
        intro hc
        obtain ⟨vm, hmem, hname⟩ := List.any_eq_true.mp hc
        exact h2 ⟨vm, hmem, by simpa using hname⟩
      simp [validateParams, isEmpty, h1, hany, h2]

/-- A concrete OS catalog record used by concrete instances. -/
def osFixture : OperatingSystem :=
  { shortId := "fedora30"
    minimumResources := { ram := none, storage := none }
    recommendedResources := { ram := none, storage := none }
    unattendedInstallable := true
    profiles := none }

/-- A concrete dialog state that passes every validation rule. -/
def stateFixture : CreateVmState :=
  { inProgress := false
    validate := false
    vmName := "vm1"
    connectionName := "system"
    sourceType := SourceType.file
    unattendedInstallation := false
    source := "/var/lib/iso/f30.iso"
    os := some osFixture
    memorySize := 1
    memorySizeUnit := SizeUnit.GiB
    storageSize := 10
    storageSizeUnit := SizeUnit.GiB
    storagePool := "NewVolume"
    storageVolume := ""
    startVm := true
    recommendedMemory := none
    minimumMemory := 0
    recommendedStorage := none
    minimumStorage := 0
    userPassword := ""
    rootPassword := ""
    profile := none }

/-- Concrete props: one existing VM named "vm1", but in the session scope —
not in `stateFixture`'s system scope. -/
def propsFixture : DialogProps :=
  { nodeMaxMemory := 16777216
    storagePools := []
    networks := []
    nodeDevices := []
    vms := [{ name := "vm1", connectionName := "session" }]
    permUserName := "root"
    permUserHome := some "/root" }

/-! ## C1 — name validation -/

/-- C1: `validateParams` returns a name failure exactly when the trimmed
`vmName` is empty or some VM in the supplied in-scope list has a name equal
(case-sensitively) to the entered `vmName`; a draft whose name matches an
existing VM only in a different connection scope (so that the
connection-filtered list passed to `validateParams` does not contain it)
gets no name failure. -/
theorem c1_name_validation :
    (∀ (u : String) (p : VmParams),
      (validateParams u p).vmName ≠ none ↔
        (jsTrim p.vmName = "" ∨ ∃ vm ∈ p.vms, vm.name = p.vmName)) ∧
    (∀ (props : DialogProps) (s : CreateVmState),
      jsTrim s.vmName ≠ "" →
      (∀ vm ∈ props.vms, vm.connectionName = s.connectionName → vm.name ≠ s.vmName) →
      (validateParams props.permUserName (mkVmParams props s)).vmName = none) := by
  refine ⟨validateParams_vmName_iff, fun props s h1 h2 => ?_⟩
  by_contra hc
  rcases (validateParams_vmName_iff props.permUserName (mkVmParams props s)).mp hc with
    h | ⟨vm, hmem, hname⟩
  · exact h1 h
  · have hmem' := List.mem_filter.mp hmem
    exact h2 vm hmem'.1 (by simpa using hmem'.2) hname

/-- C1 witness: the empty-trim hypothesis and the different-scope hypothesis
hold at the concrete fixtures, and no name failure results. -/
theorem c1_name_validation_witness :
    (validateParams propsFixture.permUserName (mkVmParams propsFixture stateFixture)).vmName
      = none :=
  c1_name_validation.2 propsFixture stateFixture (by decide) (by decide)

/-! ## C10 — the duplicate check uses the untrimmed name -/

/-- A draft whose name is whitespace only, colliding (up to trimming) with an
existing VM whose name is empty. -/
def paramsC10 : VmParams :=
  { vmName := " "
    vms := [{ name := "", connectionName := "system" }]
    os := some osFixture
    source := "/x"
    sourceType := SourceType.file
    memorySize := 1
    memorySizeUnit := SizeUnit.GiB
    storageSize := 1
    storageSizeUnit := SizeUnit.GiB
    storagePool := "NewVolume"
    unattendedInstallation := false
    rootPassword := ""
    userPassword := "" }

/-- C10 counterexample: `paramsC10.vmName` differs from the in-scope VM name
only by leading/trailing whitespace, yet `validateParams` does return a name
failure (the emptiness failure, since the trimmed name is empty), refuting
the claim as stated. -/
theorem c10_counterexample :
    paramsC10.vmName ≠ "" ∧
    (∃ vm ∈ paramsC10.vms,
      jsTrim vm.name = jsTrim paramsC10.vmName ∧ vm.name ≠ paramsC10.vmName) ∧
    (validateParams "root" paramsC10).vmName ≠ none := by
  decide

/-- C10 (amended): the duplicate-name check compares the untrimmed `vmName`
for exact equality while only the emptiness check trims, so a draft whose
`vmName` is nonempty after trimming and differs from every in-scope VM name
— in particular one differing from an existing name only by leading or
trailing whitespace — gets no name failure. -/
theorem c10_untrimmed_duplicate_check (u : String) (p : VmParams) (vm : VmRecord)
    (hmem : vm ∈ p.vms) (hws : jsTrim vm.name = jsTrim p.vmName) (hne : vm.name ≠ p.vmName)
    (hnonempty : jsTrim p.vmName ≠ "")
    (hall : ∀ w ∈ p.vms, w.name ≠ p.vmName) :
    (validateParams u p).vmName = none := by
  by_contra hc
  rcases (validateParams_vmName_iff u p).mp hc with h | ⟨w, hwmem, hwname⟩
  · exact hnonempty h
  · exact hall w hwmem hwname

/-- A draft whose name has a trailing space relative to the existing VM
"vm1". -/
def paramsC10w : VmParams :=
  { paramsC10 with
    vmName := "vm1 "
    vms := [{ name := "vm1", connectionName := "system" }] }

/-- C10 witness: at the concrete draft whose name carries a trailing space,
all hypotheses hold and no name failure is returned. -/
theorem c10_untrimmed_duplicate_check_witness :
    (validateParams "root" paramsC10w).vmName = none :=
  c10_untrimmed_duplicate_check "root" paramsC10w
    { name := "vm1", connectionName := "system" }
    (by decide) (by decide) (by decide) (by decide) (by decide)

/-! ## C2 — memory validation -/

/-- C2: `validateParams` returns a memory failure when `memorySize` is
exactly zero, regardless of OS selection; otherwise exactly when an OS is
selected, that OS specifies a (nonzero, per JavaScript truthiness) minimum
RAM requirement, and `memorySize` converted from `memorySizeUnit` to bytes
is strictly below it. -/
theorem c2_memory_validation (u : String) (p : VmParams) :
    (validateParams u p).memory ≠ none ↔
      (p.memorySize = 0 ∨
        ∃ o ram, p.os = some o ∧ o.minimumResources.ram = some ram ∧ ram ≠ 0 ∧
          convertToUnit p.memorySize p.memorySizeUnit SizeUnit.B < ram) := by
  by_cases h0 : p.memorySize = 0
  · simp [validateParams, h0]
  · cases hos : p.os with
    | none =>
      simp only [validateParams, h0, if_false, hos, ne_eq, reduceCtorEq, false_and,
        exists_false, or_false, iff_false, not_not]
    | some o =>
      cases hram : o.minimumResources.ram with
      | none =>
        constructor
        · intro hfail
          exact absurd (by simp [validateParams, h0, hos, hram]) hfail
        · intro hc
          rcases hc with h | ⟨o', ram', ho', hram', hne', hlt'⟩
          · exact absurd h h0
          · injection ho' with ho''
            subst ho''
            rw [hram] at hram'
            cases hram'
      | some ram =>
        by_cases hcond : ram ≠ 0 ∧ convertToUnit p.memorySize p.memorySizeUnit SizeUnit.B < ram
        · constructor
          · intro _
            exact Or.inr ⟨o, ram, rfl, hram, hcond.1, hcond.2⟩
          · intro _
            simp [validateParams, h0, hos, hram, hcond]
        · constructor
          · intro hfail
            exact absurd (by simp [validateParams, h0, hos, hram, hcond]) hfail
          · intro hc
            rcases hc with h | ⟨o', ram', ho', hram', hne', hlt'⟩
            · exact absurd h h0
            · exfalso
              injection ho' with ho''
              subst ho''
              rw [hram] at hram'
              injection hram' with hr
              subst hr
              exact absurd ⟨hne', hlt'⟩ hcond

/-- C2 witness: a concrete draft below the selected OS's minimum RAM does
fail, and the zero-memory draft fails with no OS selected. -/
theorem c2_memory_validation_witness :
    (validateParams "root"
      { paramsC10w with
        vmName := "vm2"
        memorySize := 1
        memorySizeUnit := SizeUnit.MiB
        os := some { osFixture with minimumResources := { ram := some 2147483648, storage := none } } }).memory
      ≠ none ∧
    (validateParams "root" { paramsC10w with vmName := "vm2", memorySize := 0, os := none }).memory
      ≠ none := by
  constructor
  · exact (c2_memory_validation "root" _).mpr
      (Or.inr ⟨_, 2147483648, rfl, rfl, by norm_num, by norm_num [convertToUnit, unitFactor]⟩)
  · exact (c2_memory_validation "root" _).mpr (Or.inl rfl)

/-! ## C5 — source validation -/

/-- C5: for a draft whose source is non-empty after trimming,
`validateParams` returns a source failure exactly when a local-media or
existing-disk source does not start with "/", or a source of any type other
than network-boot, local-media and existing-disk starts with none of
"http" / "ftp" / "nfs"; network-boot sources never fail; a source that is
empty after trimming fails exactly when the source type is not
download-OS. -/
theorem c5_source_validation (u : String) (p : VmParams) :
    (validateParams u p).source ≠ none ↔
      ((jsTrim p.source ≠ "" ∧
        (((p.sourceType = SourceType.file ∨ p.sourceType = SourceType.disk_image) ∧
            ¬ jsStartsWith p.source "/") ∨
         ((p.sourceType ≠ SourceType.pxe ∧ p.sourceType ≠ SourceType.file ∧
           p.sourceType ≠ SourceType.disk_image) ∧
          ¬ (jsStartsWith p.source "http" ∨ jsStartsWith p.source "ftp" ∨
             jsStartsWith p.source "nfs")))) ∨
       (jsTrim p.source = "" ∧ p.sourceType ≠ SourceType.os)) := by
  by_cases hs0 : p.source = ""
  · have ht : jsTrim p.source = "" := by rw [hs0]; rfl
    cases hst : p.sourceType <;> simp [validateParams, hs0, ht, isEmpty, hst] <;>
      first
      | decide
      | tauto
  · by_cases ht : jsTrim p.source = ""
    · cases hst : p.sourceType <;> simp [validateParams, hs0, ht, isEmpty, hst] <;>
        first
        | decide
        | tauto
    · cases hst : p.sourceType <;> simp [validateParams, hs0, ht, isEmpty, hst] <;>
        first
        | decide
        | tauto

/-- C5 witness: a URL-type draft whose source lacks every accepted scheme
prefix fails; the same source under the network-boot type does not fail. -/
theorem c5_source_validation_witness :
    (validateParams "root" { paramsC10w with vmName := "vm3", source := "gopher://x", sourceType := SourceType.url }).source
      ≠ none ∧
    (validateParams "root" { paramsC10w with vmName := "vm3", source := "gopher://x", sourceType := SourceType.pxe }).source
      = none := by
  constructor
  · exact (c5_source_validation "root" _).mpr
      (Or.inl ⟨by decide, Or.inr ⟨by decide, by decide⟩⟩)
  · by_contra hc
    have := (c5_source_validation "root" _).mp hc
    revert this
    decide

/-! ## C3 — submission -/

/-- C3: when `validateParams` reports no failures, submission dispatches the
frozen snapshot to the creation collaborator exactly once, with the memory
converted to MiB, the storage converted to GiB, and the literal "auto" as
`os` when no OS was chosen; when any failure exists, nothing is dispatched
and the draft is only marked as showing validation errors. -/
theorem c3_submission (props : DialogProps) (s : CreateVmState) :
    (hasFailures (validateParams props.permUserName (mkVmParams props s)) = false →
      (onCreateClicked props s).dispatches = [mkCreateVmParams s] ∧
      (mkCreateVmParams s).memorySize =
        convertToUnit s.memorySize s.memorySizeUnit SizeUnit.MiB ∧
      (mkCreateVmParams s).storageSize =
        convertToUnit s.storageSize s.storageSizeUnit SizeUnit.GiB ∧
      (s.os = none → (mkCreateVmParams s).os = "auto") ∧
      (onCreateClicked props s).inProgress = true ∧
      (onCreateClicked props s).validate = false) ∧
    (hasFailures (validateParams props.permUserName (mkVmParams props s)) = true →
      (onCreateClicked props s).dispatches = [] ∧
      (onCreateClicked props s).inProgress = false ∧
      (onCreateClicked props s).validate = true) := by
  constructor
  · intro h
    refine ⟨by simp [onCreateClicked, h], rfl, rfl, fun hos => ?_,
      by simp [onCreateClicked, h], by simp [onCreateClicked, h]⟩
    simp [mkCreateVmParams, hos]
  · intro h
    exact ⟨by simp [onCreateClicked, h], by simp [onCreateClicked, h],
      by simp [onCreateClicked, h]⟩

/-- C3 witness: the concrete valid draft is dispatched (once); the same
draft with an empty name is not dispatched. -/
theorem c3_submission_witness :
    (onCreateClicked propsFixture stateFixture).dispatches = [mkCreateVmParams stateFixture] ∧
    (onCreateClicked propsFixture { stateFixture with vmName := "" }).dispatches = [] :=
  ⟨((c3_submission propsFixture stateFixture).1 (by decide)).1,
   ((c3_submission propsFixture { stateFixture with vmName := "" }).2 (by decide)).1⟩

/-! ## C6 — memorySize clamping -/

/-- A state whose selected OS requires 1 GiB of memory (`minimumMemory` is
kept in bytes), displayed in MiB. -/
def stateC6 : CreateVmState :=
  { stateFixture with
    memorySizeUnit := SizeUnit.MiB
    minimumMemory := 1073741824
    os := some { osFixture with
                  minimumResources := { ram := some 1073741824, storage := none } } }

/-- C6 counterexample: applying the `memorySize` update rule with raw value 1
stores 1 MiB, strictly below the selected OS's minimum (1 GiB = 1024 MiB in
the current unit) — the rule clamps only against the node maximum, not
against the OS minimum, refuting the claimed lower clamp. -/
theorem c6_counterexample :
    (onValueChanged_memorySize propsFixture stateC6 1).memorySize = 1 ∧
    (onValueChanged_memorySize propsFixture stateC6 1).memorySize <
      convertToUnit stateC6.minimumMemory SizeUnit.B stateC6.memorySizeUnit := by
  have hq : convertToUnit propsFixture.nodeMaxMemory SizeUnit.KiB stateC6.memorySizeUnit
      = 16384 := by
    norm_num [convertToUnit, unitFactor, propsFixture, stateC6, stateFixture]
  have hfl : (1 : ℚ) ≤ jsFloor 16384 := by
    unfold jsFloor
    have h : (1 : ℤ) ≤ Rat.floor (16384 : ℚ) := Rat.le_floor.mpr (by norm_num)
    exact_mod_cast h
  have h1 : (onValueChanged_memorySize propsFixture stateC6 1).memorySize = 1 := by
    show min 1 (jsFloor (convertToUnit propsFixture.nodeMaxMemory SizeUnit.KiB
      stateC6.memorySizeUnit)) = 1
    rw [hq]
    exact min_eq_left hfl
  have h2 : convertToUnit stateC6.minimumMemory SizeUnit.B stateC6.memorySizeUnit = 1024 := by
    norm_num [convertToUnit, unitFactor, stateC6, stateFixture]
  refine ⟨h1, ?_⟩
  rw [h1, h2]
  norm_num

/-- C6 (amended): the `memorySize` update rule clamps the raw value only
from above, to the node maximum memory converted into the current unit (and
floored); it enforces no lower bound, the OS minimum being applied only at
display time. -/
theorem c6_memory_clamp (props : DialogProps) (s : CreateVmState) (v : ℚ) :
    (onValueChanged_memorySize props s v).memorySize =
      min v (jsFloor (convertToUnit props.nodeMaxMemory SizeUnit.KiB s.memorySizeUnit)) ∧
    (onValueChanged_memorySize props s v).memorySize ≤
      convertToUnit props.nodeMaxMemory SizeUnit.KiB s.memorySizeUnit ∧
    (onValueChanged_memorySize props s v).memorySize ≤ v :=
  ⟨rfl, le_trans (min_le_right _ _) (jsFloor_le _), min_le_left _ _⟩

/-! ## C7 — sourceType switching -/

theorem getPXEInitialNetworkSource_ne_empty (nodeDevices : List NodeDevice)
    (networks : List VirtualNetwork)
    (h : (∃ n ∈ networks, n.pxeSupport = true) ∨ (∃ d ∈ nodeDevices, d.pxeCapable = true)) :
    getPXEInitialNetworkSource nodeDevices networks ≠ "" := by
  unfold getPXEInitialNetworkSource
  cases hfind : networks.find? (fun n => n.pxeSupport) with
  | some n =>
    intro hc
    have := congrArg String.data hc
    simp [String.instAppend, String.append] at this
  | none =>
    have hnet : ¬ ∃ n ∈ networks, n.pxeSupport = true := by
      intro ⟨n, hmem, hn⟩
      have := List.find?_eq_none.mp hfind n hmem
      simp [hn] at this
    cases hfind2 : nodeDevices.find? (fun d => d.pxeCapable) with
    | some d =>
      intro hc
      have := congrArg String.data hc
      simp [String.instAppend, String.append] at this
    | none =>
      rcases h with hn | ⟨d, hmem, hd⟩
      · exact absurd hn hnet
      · have := List.find?_eq_none.mp hfind2 d hmem
        simp [hd] at this

/-- C7: switching the source type away from network-boot, when the current
type is network-boot, clears the source string; switching to network-boot
sets the source to the PXE default computed from the connection-scoped
network/device lists, which is non-empty whenever a PXE-supporting network
or PXE-capable device exists in that scope. -/
theorem c7_sourceType_switching :
    (∀ (props : DialogProps) (s : CreateVmState) (v : SourceType),
      s.sourceType = SourceType.pxe → v ≠ SourceType.pxe →
      (onValueChanged_sourceType props s v).source = "") ∧
    (∀ (props : DialogProps) (s : CreateVmState),
      (onValueChanged_sourceType props s SourceType.pxe).source =
        getPXEInitialNetworkSource
          (props.nodeDevices.filter (fun d => d.connectionName == s.connectionName))
          (props.networks.filter (fun n => n.connectionName == s.connectionName)) ∧
      (((∃ n ∈ props.networks.filter (fun n => n.connectionName == s.connectionName),
            n.pxeSupport = true) ∨
        (∃ d ∈ props.nodeDevices.filter (fun d => d.connectionName == s.connectionName),
            d.pxeCapable = true)) →
        (onValueChanged_sourceType props s SourceType.pxe).source ≠ "")) := by
  constructor
  · intro props s v hpxe hne
    simp [onValueChanged_sourceType, hne, hpxe]
  · intro props s
    constructor
    · simp [onValueChanged_sourceType]
    · intro h
      simpa [onValueChanged_sourceType] using
        getPXEInitialNetworkSource_ne_empty _ _ h

/-- Props with one PXE-supporting network in the system scope. -/
def propsC7 : DialogProps :=
  { propsFixture with
    networks := [{ name := "default", connectionName := "system", pxeSupport := true }] }

/-- C7 witness: switching away from PXE clears the concrete source;
switching to PXE on the concrete props yields a non-empty default. -/
theorem c7_sourceType_switching_witness :
    (onValueChanged_sourceType propsC7
      { stateFixture with sourceType := SourceType.pxe } SourceType.file).source = "" ∧
    (onValueChanged_sourceType propsC7 stateFixture SourceType.pxe).source ≠ "" :=
  ⟨c7_sourceType_switching.1 propsC7 { stateFixture with sourceType := SourceType.pxe }
      SourceType.file rfl (by decide),
   (c7_sourceType_switching.2 propsC7 stateFixture).2
      (Or.inl ⟨{ name := "default", connectionName := "system", pxeSupport := true },
        by decide, rfl⟩)⟩

/-! ## C8 — name normalization -/

theorem splitOnChar_ne_nil (sep : Char) (cs : List Char) : splitOnChar sep cs ≠ [] := by
  cases cs with
  | nil => simp [splitOnChar]
  | cons c cs =>
    simp only [splitOnChar]
    by_cases hc : c = sep
    · simp [hc]
    · simp only [hc, if_false]
      cases splitOnChar sep cs <;> simp

theorem joinWith_cons_cons (rep : Char) (c : Char) (g : List Char)
    (gs : List (List Char)) :
    joinWith rep ((c :: g) :: gs) = c :: joinWith rep (g :: gs) := by
  cases gs <;> rfl

/-- Splitting on `sep` and joining with `rep` replaces every occurrence of
`sep` by `rep` and leaves every other character unchanged. -/
theorem joinWith_splitOnChar (sep rep : Char) (cs : List Char) :
    joinWith rep (splitOnChar sep cs) =
      cs.map (fun c => if c = sep then rep else c) := by
  induction cs with
  | nil => rfl
  | cons c cs ih =>
    obtain ⟨g, gs, hr⟩ : ∃ g gs, splitOnChar sep cs = g :: gs := by
      cases h : splitOnChar sep cs with
      | nil => exact absurd h (splitOnChar_ne_nil sep cs)
      | cons g gs => exact ⟨g, gs, rfl⟩
    by_cases hc : c = sep
    · simp only [splitOnChar, if_pos hc, hr, List.map_cons, if_pos hc]
      simp only [joinWith, List.nil_append]
      rw [← hr, ih]
    · simp only [splitOnChar, if_neg hc, hr, List.map_cons, if_neg hc]
      rw [joinWith_cons_cons, ← hr, ih]

/-- C8 counterexample: the name rule leaves a tab character untouched (it
splits on the space character only), so a stored name can still contain
whitespace, refuting the claim that every whitespace character is
replaced. -/
theorem c8_counterexample :
    (onValueChanged_vmName stateFixture "a\tb").vmName = "a\tb" ∧
    ("a\tb".data.any Char.isWhitespace) = true := by
  decide

/-- C8 (amended): the name rule replaces every space character (U+0020) by
an underscore and leaves all other characters — including other whitespace
such as tabs — unchanged; consequently the stored name never contains a
space character. -/
theorem c8_vmName_normalization (s : CreateVmState) (v : String) :
    ((onValueChanged_vmName s v).vmName).data =
      v.data.map (fun c => if c = ' ' then '_' else c) ∧
    ' ' ∉ ((onValueChanged_vmName s v).vmName).data := by
  have hdata : ((onValueChanged_vmName s v).vmName).data =
      v.data.map (fun c => if c = ' ' then '_' else c) :=
    joinWith_splitOnChar ' ' '_' v.data
  refine ⟨hdata, ?_⟩
  rw [hdata]
  intro hmem
  obtain ⟨c, _, heq⟩ := List.mem_map.mp hmem
  by_cases hc : c = ' '
  · rw [if_pos hc] at heq
    exact absurd heq (by decide)
  · rw [if_neg hc] at heq
    exact hc heq

/-! ## C9 — unattended installation forces startVm -/

/-- C9: the `unattendedInstallation` update rule sets `startVm` to `true`
for every input value, `false` included; in particular selecting an OS that
does not support unattended installation (which re-enters the rule with
`false`) leaves the draft with `startVm = true`. -/
theorem c9_unattended_forces_start :
    (∀ (s : CreateVmState) (v : Bool),
      (onValueChanged_unattendedInstallation s v).startVm = true) ∧
    (∀ (props : DialogProps) (s : CreateVmState) (o : OperatingSystem),
      o.unattendedInstallable = false →
      (onValueChanged_os props s o).startVm = true) := by
  refine ⟨fun s v => rfl, fun props s o h => ?_⟩
  simp [onValueChanged_os, onValueChanged_unattendedInstallation, h]

/-- C9 witness: disabling unattended installation on the concrete state
leaves `startVm = true`, and so does selecting a concrete OS without
unattended support. -/
theorem c9_unattended_forces_start_witness :
    (onValueChanged_unattendedInstallation
      { stateFixture with startVm := false } false).startVm = true ∧
    (onValueChanged_os propsFixture { stateFixture with startVm := false }
      { osFixture with unattendedInstallable := false }).startVm = true :=
  ⟨c9_unattended_forces_start.1 { stateFixture with startVm := false } false,
   c9_unattended_forces_start.2 propsFixture { stateFixture with startVm := false }
     { osFixture with unattendedInstallable := false } rfl⟩

end CreateVmDialog
